/-
Verification of the PRC DMS/CSR consolidation pipeline.

Shallow embedding of the core transformation code:
  * `src/processing.py`      — reshape (melt) of wide activity tables,
  * `src/transformations.py` — beneficiary calculator, validation status,
                               total cost, municipality PCode matching,
  * `src/utils.py`           — fuzzy static-column classifier,
  * `src/config.py`          — the static-column list.

Modelling conventions:
  * A spreadsheet cell is `Cell`: `na` (pandas NaN / Python None), a raw
    string (files are read with `dtype=str`), or an already-coerced number.
  * Python floats are modelled as exact rationals (`Rat`); all arithmetic in
    the claims is exact in IEEE double as well.
  * `pd.to_numeric(x, errors = coerce)` is `toNumeric`; an unparseable or
    missing value becomes `none` (NaN).  A NaN produced *inside* a
    computation (e.g. `NaN / q`) is likewise modelled as `none`: the code
    only ever observes such values through `pd.isna`, which is true for
    both None and NaN.
  * `parseNumeric` models the numeral fragment pandas accepts that the
    pipeline exercises: optional surrounding whitespace, optional sign,
    decimal digits with at most one decimal point.  A thousands separator
    (comma) is NOT accepted by `pd.to_numeric`.
  * Python `str.strip` / `str.upper` are `pyStrip` / `pyUpper` (ASCII case
    mapping; every token the code compares against is ASCII).
-/

import Mathlib

namespace DmsCsr

/-- A raw spreadsheet cell: missing (NaN/None), text, or a number. -/
inductive Cell where
  | na : Cell
  | str (s : String) : Cell
  | num (q : Rat) : Cell
deriving DecidableEq, Repr

/-- Exact multiplication of rationals (Python float `*`, modelled exactly).
`Rat.divInt` is used so the operation evaluates inside the kernel;
`ratMul_eq` proves it is ordinary multiplication. -/
def ratMul (a b : Rat) : Rat := Rat.divInt (a.num * b.num) (a.den * b.den)

/-- Exact division of rationals (Python float `/`, modelled exactly).
`ratDiv_eq` proves it is ordinary division.  The code only divides by
numbers it has checked to be nonzero. -/
def ratDiv (a b : Rat) : Rat := Rat.divInt (a.num * b.den) (b.num * a.den)

theorem ratMul_eq (a b : Rat) : ratMul a b = a * b := by
  rw [ratMul, Rat.divInt_eq_div]
  push_cast
  rw [← div_mul_div_comm, Rat.num_div_den, Rat.num_div_den]

theorem ratDiv_eq (a b : Rat) : ratDiv a b = a / b := by
  rcases eq_or_ne b 0 with hb | hb
  · subst hb; simp [ratDiv, Rat.divInt_eq_div]
  · have hbn : (b.num : Rat) ≠ 0 := by exact_mod_cast Rat.num_ne_zero.mpr hb
    have hbd : (b.den : Rat) ≠ 0 := Nat.cast_ne_zero.mpr b.den_nz
    have had : (a.den : Rat) ≠ 0 := Nat.cast_ne_zero.mpr a.den_nz
    rw [ratDiv, Rat.divInt_eq_div]
    push_cast
    conv_rhs => rw [← Rat.num_div_den a, ← Rat.num_div_den b]
    field_simp
    exact Or.inl (mul_comm _ _)

/-- Python `s.strip()`: drop leading and trailing whitespace. -/
def pyStrip (s : String) : String :=
  ⟨(((s.data.dropWhile Char.isWhitespace).reverse.dropWhile Char.isWhitespace).reverse)⟩

/-- Python `s.upper()` (ASCII fragment). -/
def pyUpper (s : String) : String :=
  ⟨s.data.map Char.toUpper⟩

/-- Python `s.lower()` (ASCII fragment). -/
def pyLower (s : String) : String :=
  ⟨s.data.map Char.toLower⟩

/-- Value of a list of decimal digit characters. -/
def digitsVal (cs : List Char) : Nat :=
  cs.foldl (fun a c => a * 10 + (c.toNat - 48)) 0

/-- Parse an unsigned decimal numeral: digits with at most one point. -/
def parseUnsigned (cs : List Char) : Option Rat :=
  let intPart := cs.takeWhile Char.isDigit
  let rest := cs.dropWhile Char.isDigit
  match rest with
  | [] => if intPart.isEmpty then none else some (mkRat (digitsVal intPart) 1)
  | '.' :: frac =>
      if frac.all Char.isDigit && (!intPart.isEmpty || !frac.isEmpty) then
        some (mkRat (digitsVal intPart * 10 ^ frac.length + digitsVal frac) (10 ^ frac.length))
      else none
  | _ => none

/-- `pd.to_numeric(s, errors="coerce")` on a string: whitespace is stripped,
an optional sign is allowed, anything unparseable becomes NaN (`none`). -/
def parseNumeric (s : String) : Option Rat :=
  match (pyStrip s).data with
  | '-' :: rest => (parseUnsigned rest).map (fun q => -q)
  | '+' :: rest => parseUnsigned rest
  | cs => parseUnsigned cs

/-- `pd.to_numeric(cell, errors="coerce")`. -/
def toNumeric : Cell → Option Rat
  | .na => none
  | .num q => some q
  | .str s => parseNumeric s

/-- Python `str(x)` on an optional string cell: `str(nan) = "nan"`. -/
def pyStr : Option String → String
  | none => "nan"
  | some s => s

/-- The cash/monetary unit tokens of `transformations.py`. -/
def cashTokens : List String := ["PESOS", "PHP", "CASH", "PESO"]

/-- `str(row.get("Unit", "")).strip().upper() in ["PESOS","PHP","CASH","PESO"]`. -/
def isCashUnit (unit : Option String) : Bool :=
  pyUpper (pyStrip (pyStr unit)) ∈ cashTokens

/-- Python `x or 0` applied to a coerced numeric: NaN is truthy, so a NaN
stays NaN; a numeric zero is replaced by the literal 0 (the same value). -/
def orZero : Option Rat → Option Rat
  | none => none
  | some q => if q = 0 then some 0 else some q

/-- The row fields read by the beneficiary calculator
(`transformations.py`, `calculate_beneficiary_units` / `calculate_individuals`). -/
structure BRow where
  Count : Cell
  Quantity : Cell
  People_Per_Beneficiary : Cell
  Unit : Option String
deriving DecidableEq, Repr

/-- `transformations.py::calculate_beneficiary_units`.
Cash units are flagged for manual review (`None`); a missing or zero
Quantity makes the division undefined (`None`); otherwise Count / Quantity.
A NaN Count propagates to a NaN (missing) result. -/
def calculate_beneficiary_units (row : BRow) : Option Rat :=
  let count := orZero (toNumeric row.Count)
  let quantity := toNumeric row.Quantity
  if isCashUnit row.Unit then none
  else
    match quantity with
    | none => none
    | some q =>
      if q = 0 then none
      else
        match count with
        | none => none
        | some c => some (ratDiv c q)

/-- `transformations.py::calculate_individuals`.
Same guards, plus People_Per_Beneficiary missing/zero gives `None`;
otherwise (Count / Quantity) × People_Per_Beneficiary. -/
def calculate_individuals (row : BRow) : Option Rat :=
  let count := orZero (toNumeric row.Count)
  let quantity := toNumeric row.Quantity
  let ppb := toNumeric row.People_Per_Beneficiary
  if isCashUnit row.Unit then none
  else
    match quantity with
    | none => none
    | some q =>
      if q = 0 then none
      else
        match ppb with
        | none => none
        | some p =>
          if p = 0 then none
          else
            match count with
            | none => none
            | some c => some (ratMul (ratDiv c q) p)

/-! ## Validation status (`transformations.py::determine_validation_status`) -/

/-- The output-record fields read by `determine_validation_status`.
Field names stand for the columns `Sector`, `Activity`,
`# of Beneficiaries Served`, `Number of Individuals` and
`Duplicate_Mapping_Flag`. -/
structure VRow where
  Sector : Option String
  Activity : Option String
  beneficiaries_served : Option Rat
  number_of_individuals : Option Rat
  duplicate_mapping_flag : Option String
deriving DecidableEq, Repr

/-- `pd.isna(Sector) or str(Sector).strip() == "" or
str(Activity).strip().upper() == "NEEDS MAPPING" or
str(Sector).strip().upper() == "NEEDS MAPPING"`. -/
def has_mapping_error (row : VRow) : Bool :=
  row.Sector.isNone
    || pyStrip (pyStr row.Sector) == ""
    || pyUpper (pyStrip (pyStr row.Activity)) == "NEEDS MAPPING"
    || pyUpper (pyStrip (pyStr row.Sector)) == "NEEDS MAPPING"

/-- Both beneficiary columns are null. -/
def has_beneficiary_error (row : VRow) : Bool :=
  row.beneficiaries_served.isNone && row.number_of_individuals.isNone

/-- `row.get("Duplicate_Mapping_Flag") == "DUPLICATE MAPPING"`. -/
def has_duplicate_mapping (row : VRow) : Bool :=
  row.duplicate_mapping_flag == some "DUPLICATE MAPPING"

/-- `transformations.py::determine_validation_status`. -/
def determine_validation_status (row : VRow) : String :=
  if has_duplicate_mapping row then "Check - Duplicate Mapping"
  else if has_mapping_error row && has_beneficiary_error row then "Check"
  else if has_mapping_error row then "Check Mapping"
  else if has_beneficiary_error row then "Check Beneficiaries"
  else "For Validation"

/-! ## Total cost (`transformations.py::calculate_total_cost`) -/

/-- The fields read by `calculate_total_cost`.  By the time it runs
(line 246 onwards), `Count` and `ACTIVITY COSTING` have been coerced with
`pd.to_numeric(..., errors="coerce").fillna(0)`, so they are plain numbers;
`# of Beneficiaries Served` can still be null. -/
structure CRow where
  Unit : Option String
  Count : Rat
  activity_costing : Rat
  beneficiaries_served : Option Rat
deriving DecidableEq, Repr

/-- `pd.notna(beneficiaries) and beneficiaries > 0`: the code's test for a
usable beneficiary count in the cash branch. -/
def benAvailable : Option Rat → Bool
  | none => false
  | some b => 0 < b

/-- `transformations.py::calculate_total_cost`. -/
def calculate_total_cost (row : CRow) : Rat :=
  if isCashUnit row.Unit then
    let num_recipients :=
      if benAvailable row.beneficiaries_served then
        row.beneficiaries_served.getD 0
      else row.Count
    ratMul num_recipients row.activity_costing
  else ratMul row.activity_costing row.Count

/-- Line 246: `pd.to_numeric(output_df["Count"], errors="coerce").fillna(0)`. -/
def transformed_count (c : Cell) : Rat := (toNumeric c).getD 0

/-- Line 247: `pd.to_numeric(output_df.get("COST", 0), errors="coerce").fillna(0)`. -/
def transformed_costing (c : Cell) : Rat := (toNumeric c).getD 0

/-- Total cost as produced inside `transform_to_output_schema`: the
`# of Beneficiaries Served` column was filled by `calculate_beneficiary_units`
(line 171) before `calculate_total_cost` runs (line 264). -/
def pipeline_total_cost (row : BRow) (cost : Cell) : Rat :=
  calculate_total_cost
    { Unit := row.Unit
      Count := transformed_count row.Count
      activity_costing := transformed_costing cost
      beneficiaries_served := calculate_beneficiary_units row }

/-! ## Reshaper (`processing.py::process_single_file`, lines 59–79) -/

/-- One input row: its static-column values and its activity-column cells. -/
structure RawRow where
  staticVals : List (String × Cell)
  activityCells : List (String × Cell)
deriving DecidableEq, Repr

/-- One long-form activity observation produced by the melt. -/
structure Obs where
  staticVals : List (String × Cell)
  rawItemName : String
  Count : Option Rat
deriving DecidableEq, Repr

/-- `pd.melt(df, id_vars=static, value_vars=activity)` restricted to a single
row, followed by `pd.to_numeric(melted["Count"], errors="coerce")` (line 75):
one observation per activity column, carrying copies of the row's static
values. -/
def meltRow (r : RawRow) : List Obs :=
  r.activityCells.map (fun nc => { staticVals := r.staticVals, rawItemName := nc.1, Count := toNumeric nc.2 })

/-- `melted["Count"].notna() & (melted["Count"] > 0)`. -/
def posCount : Option Rat → Bool
  | none => false
  | some c => 0 < c

/-- Lines 78–79: drop NaN and non-positive counts. -/
def reshapeRow (r : RawRow) : List Obs :=
  (meltRow r).filter (fun o => posCount o.Count)

/-- `processing.py` lines 28–32: for the columns COST, Quantity and
People_Per_Beneficiary ONLY, `astype(str).str.replace(",", "")` followed by
`pd.to_numeric(errors="coerce")` — commas are stripped before coercion. -/
def numericCols : List String := ["COST", "Quantity", "People_Per_Beneficiary"]

/-- Remove every comma from a string. -/
def stripCommas (s : String) : String := ⟨s.data.filter (fun c => c ≠ ',')⟩

/-- The comma-stripping coercion of `processing.py` lines 28–32. -/
def cleanNumericCell : Cell → Option Rat
  | .na => none
  | .num q => some q
  | .str s => parseNumeric (stripCommas s)

/-! ## Merge with the mapping table (`processing.py`, lines 90–95) -/

/-- A taxonomy (mapping-table) row, restricted to the columns the
validation-status path reads. -/
structure TaxEntry where
  RawItemName : String
  Sector : Option String
  Activity : Option String
  Quantity : Cell
  Unit : Option String
  People_Per_Beneficiary : Cell
deriving DecidableEq, Repr

/-- `melted_df.merge(mapping_df, left_on="MatchedActivity",
right_on="RawItemName", how="left")` for a single observation: one output
row per mapping row whose `RawItemName` equals the match key — duplicate
`RawItemName`s multiply the observation — or a single all-null mapping side
if nothing matches. -/
def mergeWithMapping (matchedActivity : String) (mapping : List TaxEntry) :
    List (Option TaxEntry) :=
  let hits := mapping.filter (fun e => e.RawItemName == matchedActivity)
  if hits.isEmpty then [none] else hits.map some

/-- The `Validation Status` that `transform_to_output_schema` assigns to one
merged row: the beneficiary columns are computed by the calculators, and no
code anywhere in the repository ever creates a `Duplicate_Mapping_Flag`
column, so `row.get("Duplicate_Mapping_Flag")` is always `None`. -/
def statusOfMergedRow (count : Cell) (merged : Option TaxEntry) : String :=
  let brow : BRow :=
    { Count := count
      Quantity := (merged.map (·.Quantity)).getD Cell.na
      People_Per_Beneficiary := (merged.map (·.People_Per_Beneficiary)).getD Cell.na
      Unit := merged.bind (·.Unit) }
  determine_validation_status
    { Sector := merged.bind (·.Sector)
      Activity := merged.bind (·.Activity)
      beneficiaries_served := calculate_beneficiary_units brow
      number_of_individuals := calculate_individuals brow
      duplicate_mapping_flag := none }

/-- Validation statuses of all output records that one observation yields
after the merge. -/
def pipelineStatuses (count : Cell) (matchedActivity : String)
    (mapping : List TaxEntry) : List String :=
  (mergeWithMapping matchedActivity mapping).map (statusOfMergedRow count)

/-! ## Column classifier (`utils.py::is_static_column`, `config.py`) -/

/-- `config.py::STATIC_COLUMNS`. -/
def STATIC_COLUMNS : List String :=
  [ "Date of Activity"
  , "Location Notes/Place/Evacuation Center"
  , "Barangay"
  , "Municipality/City"
  , "Province"
  , "Chapter"
  , "Relief Donor"
  , "Additional Comments" ]

/-- One dynamic-programming step for the longest common subsequence:
extend the row of LCS values for prefix `s[0..i)` (`prev`, tail starting at
column `j`) to the row for `s[0..i]`, given `new[j] = nj`. -/
def lcsStep (x : Char) : List Char → List Nat → Nat → List Nat
  | [], _, _ => []
  | _ :: _, [], _ => []
  | y :: ys, pj :: rest, nj =>
    let nj1 := if x = y then pj + 1 else max nj (rest.headD 0)
    nj1 :: lcsStep x ys rest nj1

/-- Length of the longest common subsequence of two character lists
(row-by-row dynamic programming, so it evaluates in the kernel). -/
def lcsLen (s t : List Char) : Nat :=
  (s.foldl (fun prev x => 0 :: lcsStep x t prev 0) (List.replicate (t.length + 1) 0)).getLastD 0

/-- Round `num / den` to the nearest integer, ties to even (Python
`round`, used by `thefuzz` on the similarity percentage). -/
def roundHalfEven (num den : Nat) : Nat :=
  let q := num / den
  let r := num % den
  if 2 * r < den then q
  else if den < 2 * r then q + 1
  else if q % 2 = 0 then q else q + 1

/-- `thefuzz.fuzz.ratio`: the indel similarity
`100 · 2·LCS(a,b) / (|a| + |b|)` rounded to an integer (both strings empty
gives 100). -/
def fuzz_ratio (a b : String) : Nat :=
  let la := a.data.length
  let lb := b.data.length
  if la + lb = 0 then 100
  else roundHalfEven (200 * lcsLen a.data b.data) (la + lb)

/-- `utils.py::is_static_column`: true iff some static column name reaches
similarity `threshold` (default 90) against the lowercased candidate.  (The
debug block in the source recomputes the same scores into a file and does
not affect the returned value.) -/
def is_static_column (column_name : String) (static_columns : List String)
    (threshold : Nat := 90) : Bool :=
  static_columns.any (fun sc => threshold ≤ fuzz_ratio (pyLower column_name) (pyLower sc))

/-- One dynamic-programming step for the Levenshtein distance (used only to
STATE the "within one character edit" property; it is not part of the
code). -/
def levStep (x : Char) : List Char → List Nat → Nat → List Nat
  | [], _, _ => []
  | _ :: _, [], _ => []
  | y :: ys, pj :: rest, nj =>
    let cost := if x = y then 0 else 1
    let nj1 := min (pj + cost) (min (rest.headD 0 + 1) (nj + 1))
    nj1 :: levStep x ys rest nj1

/-- Levenshtein edit distance between two character lists. -/
def levenshtein (s t : List Char) : Nat :=
  (s.foldl (fun st x => (st.1 + 1, (st.1 + 1) :: levStep x t st.2 (st.1 + 1)))
    ((0, List.range (t.length + 1)) : Nat × List Nat)).2.getLastD 0

/-- All lists obtained from `s` by deleting exactly one element. -/
def deletionVariants : List Char → List (List Char)
  | [] => []
  | c :: cs => cs :: (deletionVariants cs).map (c :: ·)

/-! ## Municipality PCode matching (`transformations.py::match_municipality`) -/

/-- A row of the PCode reference table (`phl_adminareas_fixed.csv`),
restricted to the columns `match_municipality` reads: the province code,
the cleaned municipality name and the municipality code. -/
structure PcodeEntry where
  ADM2_new : String
  adm3_clean : Option String
  ADM3_new : String
deriving DecidableEq, Repr

/-- The fields of a record that `match_municipality` reads:
`Municipality/City` and the already-resolved `Prov_CODE`. -/
structure MRow where
  municipality_city : Option String
  prov_code : Option String
deriving DecidableEq, Repr

/-- `transformations.py::match_municipality`.  `extractOne` abstracts
`thefuzz.process.extractOne(cleaned, mun_list, score_cutoff=85)`, which
returns `None` or one element of its candidate list; the scoping claim
holds for any such function.  The candidate list is restricted to the rows
whose `ADM2_new` equals the record's resolved province code, and the code
returned comes from a row selected under the same restriction
(`.iloc[0]` of the doubly-filtered frame, here `head?`). -/
def match_municipality (extractOne : String → List String → Option String)
    (pcode_df : List PcodeEntry) (row : MRow) : Option String :=
  match row.municipality_city with
  | none => none
  | some m =>
    if m = "" then none
    else
      match row.prov_code with
      | none => none
      | some pc =>
        let mun_list :=
          ((pcode_df.filter (fun e => e.ADM2_new == pc)).filterMap (fun e => e.adm3_clean)).dedup
        match extractOne (pyLower (pyStrip m)) mun_list with
        | none => none
        | some matched =>
          ((pcode_df.filter (fun e => e.ADM2_new == pc && e.adm3_clean == some matched)).head?).map
            (fun e => e.ADM3_new)

/-! ## Claims -/

/-- C1: the beneficiary calculator meets the reference cases.  With
Count=10, Quantity=2, People_Per_Beneficiary=5 and the non-cash unit "KG",
`calculate_beneficiary_units` returns 5 and `calculate_individuals` returns
25; for every row whose Unit normalizes (strip, uppercase) to a cash token
both functions return null; and for every row whose Quantity is missing or
zero both functions return null. -/
theorem beneficiary_calculator_reference_cases :
    (calculate_beneficiary_units ⟨Cell.num 10, Cell.num 2, Cell.num 5, some "KG"⟩ = some 5 ∧
     calculate_individuals ⟨Cell.num 10, Cell.num 2, Cell.num 5, some "KG"⟩ = some 25) ∧
    (∀ row : BRow, isCashUnit row.Unit = true →
      calculate_beneficiary_units row = none ∧ calculate_individuals row = none) ∧
    (∀ row : BRow, toNumeric row.Quantity = none ∨ toNumeric row.Quantity = some 0 →
      calculate_beneficiary_units row = none ∧ calculate_individuals row = none) := by
  refine ⟨⟨by decide, by decide⟩, ?_, ?_⟩
  · intro row h
    constructor <;> simp [calculate_beneficiary_units, calculate_individuals, h]
  · intro row h
    rcases h with h | h <;>
      constructor <;> simp [calculate_beneficiary_units, calculate_individuals, h]

/-- Witness for C1 at concrete inputs: a cash unit and a zero quantity. -/
theorem beneficiary_calculator_reference_cases_witness :
    calculate_beneficiary_units ⟨Cell.num 9, Cell.num 3, Cell.num 2, some " Pesos "⟩ = none ∧
    calculate_individuals ⟨Cell.num 9, Cell.num 0, Cell.num 2, some "KG"⟩ = none :=
  ⟨(beneficiary_calculator_reference_cases.2.1
      ⟨Cell.num 9, Cell.num 3, Cell.num 2, some " Pesos "⟩ (by decide)).1,
   (beneficiary_calculator_reference_cases.2.2
      ⟨Cell.num 9, Cell.num 0, Cell.num 2, some "KG"⟩ (Or.inr (by decide))).2⟩

/-- C2: with no duplicate-mapping flag (no code in the repository ever
creates that column, so every record the DMS-5W transformer processes has
it null), the validation status composes exactly from the two defects:
both ⇒ "Check", taxonomy miss alone ⇒ "Check Mapping", beneficiary miss
alone ⇒ "Check Beneficiaries", neither ⇒ "For Validation". -/
theorem validation_status_composition :
    ∀ row : VRow, row.duplicate_mapping_flag = none →
      ((has_mapping_error row = true ∧ has_beneficiary_error row = true) →
          determine_validation_status row = "Check") ∧
      ((has_mapping_error row = true ∧ has_beneficiary_error row = false) →
          determine_validation_status row = "Check Mapping") ∧
      ((has_mapping_error row = false ∧ has_beneficiary_error row = true) →
          determine_validation_status row = "Check Beneficiaries") ∧
      ((has_mapping_error row = false ∧ has_beneficiary_error row = false) →
          determine_validation_status row = "For Validation") := by
  intro row hdup
  have hd : has_duplicate_mapping row = false := by
    simp [has_duplicate_mapping, hdup]
  refine ⟨?_, ?_, ?_, ?_⟩ <;> rintro ⟨h1, h2⟩ <;>
    simp [determine_validation_status, hd, h1, h2]

/-- Witness for C2: a fully-mapped computed record and a doubly-defective
record. -/
theorem validation_status_composition_witness :
    determine_validation_status ⟨some "Food", some "Relief", some 5, some 20, none⟩ =
      "For Validation" ∧
    determine_validation_status ⟨none, none, none, none, none⟩ = "Check" :=
  ⟨(validation_status_composition ⟨some "Food", some "Relief", some 5, some 20, none⟩
      rfl).2.2.2 ⟨by decide, by decide⟩,
   (validation_status_composition ⟨none, none, none, none, none⟩ rfl).1
      ⟨by decide, by decide⟩⟩

/-- C3: total cost follows the unit-dependent rule.  The reference cases:
Unit="PESOS" with beneficiary count 4 and costing 1000 gives 4000, and
Unit="KG" with Count 10 and costing 50 gives 500.  In general a non-cash
unit gives Count × cost, and a cash unit gives beneficiary-count × cost
when a usable (non-null, positive) beneficiary count exists, else
Count × cost. -/
theorem total_cost_rule :
    (calculate_total_cost ⟨some "PESOS", 7, 1000, some 4⟩ = 4000 ∧
     calculate_total_cost ⟨some "KG", 10, 50, none⟩ = 500) ∧
    (∀ row : CRow, isCashUnit row.Unit = false →
        calculate_total_cost row = row.Count * row.activity_costing) ∧
    (∀ row : CRow, isCashUnit row.Unit = true →
        (∀ b, row.beneficiaries_served = some b → 0 < b →
            calculate_total_cost row = b * row.activity_costing) ∧
        (benAvailable row.beneficiaries_served = false →
            calculate_total_cost row = row.Count * row.activity_costing)) := by
  refine ⟨⟨by decide, by decide⟩, ?_, ?_⟩
  · intro row h
    simp [calculate_total_cost, h, ratMul_eq, mul_comm]
  · intro row h
    constructor
    · intro b hb hpos
      simp [calculate_total_cost, h, hb, benAvailable, hpos, ratMul_eq]
    · intro hna
      simp [calculate_total_cost, h, hna, ratMul_eq]

/-- Witness for C3: one non-cash row, one cash row with a usable
beneficiary count, one cash row without. -/
theorem total_cost_rule_witness :
    calculate_total_cost ⟨some "KG", 3, 7, some 2⟩ = 3 * 7 ∧
    calculate_total_cost ⟨some "CASH", 3, 7, some 2⟩ = 2 * 7 ∧
    calculate_total_cost ⟨some "CASH", 3, 7, none⟩ = 3 * 7 :=
  ⟨total_cost_rule.2.1 ⟨some "KG", 3, 7, some 2⟩ (by decide),
   (total_cost_rule.2.2 ⟨some "CASH", 3, 7, some 2⟩ (by decide)).1 2 rfl (by decide),
   (total_cost_rule.2.2 ⟨some "CASH", 3, 7, none⟩ (by decide)).2 (by decide)⟩

/-- C4: the reshaper never emits an observation whose Count is null or
non-positive; the number of emitted observations equals the number of
activity cells whose value parses to a strictly positive number; and each
emitted observation carries the row's static values unchanged. -/
theorem reshaper_positive_counts :
    ∀ r : RawRow,
      (∀ o ∈ reshapeRow r, ∃ c, o.Count = some c ∧ 0 < c) ∧
      (reshapeRow r).length =
        (r.activityCells.filter (fun nc => posCount (toNumeric nc.2))).length ∧
      (∀ o ∈ reshapeRow r, o.staticVals = r.staticVals) := by
  intro r
  refine ⟨?_, ?_, ?_⟩
  · intro o ho
    have hp := (List.mem_filter.mp ho).2
    cases hc : o.Count with
    | none => rw [hc] at hp; simp [posCount] at hp
    | some c =>
      refine ⟨c, rfl, ?_⟩
      rw [hc] at hp
      simpa [posCount] using hp
  · rw [reshapeRow, meltRow, List.filter_map, List.length_map]
    rfl
  · intro o ho
    have hm : o ∈ meltRow r := (List.mem_filter.mp ho).1
    rw [meltRow] at hm
    obtain ⟨nc, _, rfl⟩ := List.mem_map.mp hm
    rfl

/-- Witness for C4 on a concrete row with one positive, one zero and one
unparseable activity cell. -/
theorem reshaper_positive_counts_witness :
    (reshapeRow ⟨[("Province", Cell.str "Cebu")],
        [("Rice", Cell.str "5"), ("Water", Cell.str "0"), ("Kits", Cell.str "n/a")]⟩).length =
      ([("Rice", Cell.str "5"), ("Water", Cell.str "0"), ("Kits", Cell.str "n/a")].filter
        (fun nc => posCount (toNumeric nc.2))).length ∧
    (∃ c, (Obs.mk [("Province", Cell.str "Cebu")] "Rice" (some 5)).Count = some c ∧ 0 < c) ∧
    (Obs.mk [("Province", Cell.str "Cebu")] "Rice" (some 5)).staticVals =
      [("Province", Cell.str "Cebu")] :=
  ⟨(reshaper_positive_counts _).2.1,
   (reshaper_positive_counts ⟨[("Province", Cell.str "Cebu")],
      [("Rice", Cell.str "5"), ("Water", Cell.str "0"), ("Kits", Cell.str "n/a")]⟩).1
      _ (by decide),
   (reshaper_positive_counts ⟨[("Province", Cell.str "Cebu")],
      [("Rice", Cell.str "5"), ("Water", Cell.str "0"), ("Kits", Cell.str "n/a")]⟩).2.2
      _ (by decide)⟩

/-- C5: municipality matching is scoped to the resolved province.  If the
record's province code is null the municipality code stays null, and any
returned code comes from a reference-table row whose province code equals
the record's resolved province code.  This holds for every possible
behaviour of the fuzzy `extractOne` scorer. -/
theorem municipality_scoping :
    ∀ (extractOne : String → List String → Option String)
      (pcode_df : List PcodeEntry) (row : MRow),
      (row.prov_code = none → match_municipality extractOne pcode_df row = none) ∧
      (∀ code, match_municipality extractOne pcode_df row = some code →
        ∃ pc, row.prov_code = some pc ∧
          ∃ e ∈ pcode_df, e.ADM2_new = pc ∧ e.ADM3_new = code) := by
  intro f t row
  constructor
  · intro h
    unfold match_municipality
    cases hm : row.municipality_city with
    | none => rfl
    | some m => simp [h, hm]
  · intro code h
    unfold match_municipality at h
    cases hm : row.municipality_city with
    | none => rw [hm] at h; exact absurd h (by simp)
    | some m =>
      rw [hm] at h
      dsimp only at h
      by_cases hme : m = ""
      · simp [hme] at h
      · rw [if_neg hme] at h
        cases hp : row.prov_code with
        | none => rw [hp] at h; exact absurd h (by simp)
        | some pc =>
          rw [hp] at h
          dsimp only at h
          refine ⟨pc, rfl, ?_⟩
          cases hx : f (pyLower (pyStrip m))
              (((t.filter (fun e => e.ADM2_new == pc)).filterMap (fun e => e.adm3_clean)).dedup) with
          | none => rw [hx] at h; exact absurd h (by simp)
          | some matched =>
            rw [hx] at h
            dsimp only at h
            obtain ⟨e, he, hcode⟩ := Option.map_eq_some'.mp h
            have hmem : e ∈ t.filter (fun x => x.ADM2_new == pc && x.adm3_clean == some matched) := by
              cases hl : t.filter (fun x => x.ADM2_new == pc && x.adm3_clean == some matched) with
              | nil => rw [hl] at he; exact absurd he (by simp)
              | cons a as =>
                rw [hl] at he
                simp at he
                rw [← he]
                exact List.mem_cons_self a as
            have hmf := List.mem_filter.mp hmem
            refine ⟨e, hmf.1, ?_, hcode⟩
            have hb := hmf.2
            simp only [Bool.and_eq_true, beq_iff_eq] at hb
            exact hb.1

/-- Witness for C5: a two-province table in which both provinces contain a
municipality of the same cleaned name; the resolved code is the one scoped
to the record's province. -/
theorem municipality_scoping_witness :
    match_municipality (fun _ cs => cs.head?)
      [⟨"PH01", some "cebu city", "MUN001"⟩, ⟨"PH02", some "cebu city", "MUN999"⟩]
      ⟨some "Cebu City", none⟩ = none ∧
    (∃ pc, (MRow.mk (some "Cebu City") (some "PH02")).prov_code = some pc ∧
      ∃ e ∈ [PcodeEntry.mk "PH01" (some "cebu city") "MUN001",
             PcodeEntry.mk "PH02" (some "cebu city") "MUN999"],
        e.ADM2_new = pc ∧ e.ADM3_new = "MUN999") :=
  ⟨(municipality_scoping (fun _ cs => cs.head?) _ ⟨some "Cebu City", none⟩).1 rfl,
   (municipality_scoping (fun _ cs => cs.head?)
      [⟨"PH01", some "cebu city", "MUN001"⟩, ⟨"PH02", some "cebu city", "MUN999"⟩]
      ⟨some "Cebu City", some "PH02"⟩).2 "MUN999" (by decide)⟩

/-- C6: an observation whose match key hits a duplicated taxonomy
RawItemName yields one output record per duplicate (the merge tolerates the
duplicates), but NO record carries the "Check - Duplicate Mapping" status:
nothing in the repository ever creates the `Duplicate_Mapping_Flag` column
that `determine_validation_status` tests, so the records come out as
ordinary "For Validation" rows. -/
theorem duplicate_mapping_not_flagged :
    (mergeWithMapping "RICE DISTRIBUTION"
      [⟨"RICE DISTRIBUTION", some "Food", some "Rice Distribution", Cell.num 1, some "KG", Cell.num 4⟩,
       ⟨"RICE DISTRIBUTION", some "Food Security", some "Rice Distribution", Cell.num 2, some "KG", Cell.num 5⟩]).length = 2 ∧
    pipelineStatuses (Cell.num 10) "RICE DISTRIBUTION"
      [⟨"RICE DISTRIBUTION", some "Food", some "Rice Distribution", Cell.num 1, some "KG", Cell.num 4⟩,
       ⟨"RICE DISTRIBUTION", some "Food Security", some "Rice Distribution", Cell.num 2, some "KG", Cell.num 5⟩]
      = ["For Validation", "For Validation"] ∧
    "Check - Duplicate Mapping" ∉ pipelineStatuses (Cell.num 10) "RICE DISTRIBUTION"
      [⟨"RICE DISTRIBUTION", some "Food", some "Rice Distribution", Cell.num 1, some "KG", Cell.num 4⟩,
       ⟨"RICE DISTRIBUTION", some "Food Security", some "Rice Distribution", Cell.num 2, some "KG", Cell.num 5⟩] := by
  refine ⟨by decide, by decide, by decide⟩

/-- C7: a blank or unparseable Count is missing, never zero.  Blank and
non-numeric strings coerce to null, and with a null Count both calculators
return null (the NaN result of the division is a missing value, not 0). -/
theorem blank_count_missing_not_zero :
    (parseNumeric "" = none ∧ parseNumeric "   " = none ∧ parseNumeric "abc" = none) ∧
    (∀ row : BRow, toNumeric row.Count = none →
      calculate_beneficiary_units row = none ∧ calculate_individuals row = none) := by
  refine ⟨⟨by decide, by decide, by decide⟩, ?_⟩
  intro row h
  constructor <;>
  · simp only [calculate_beneficiary_units, calculate_individuals, h, orZero]
    cases hq : toNumeric row.Quantity <;>
      cases hp : toNumeric row.People_Per_Beneficiary <;>
      simp [hq, hp]

/-- Witness for C7: a whitespace-only Count cell. -/
theorem blank_count_missing_not_zero_witness :
    calculate_beneficiary_units ⟨Cell.str "  ", Cell.num 2, Cell.num 5, some "KG"⟩ = none ∧
    calculate_individuals ⟨Cell.str "  ", Cell.num 2, Cell.num 5, some "KG"⟩ = none :=
  blank_count_missing_not_zero.2 ⟨Cell.str "  ", Cell.num 2, Cell.num 5, some "KG"⟩ (by decide)

/-- Counterexample to C8: an activity-column cell "1,000" does not parse to
1000 — `pd.to_numeric` rejects the thousands separator, the count becomes
null and the observation is dropped (the comma-stripping of
`processing.py` lines 28–32 applies only to COST, Quantity and
People_Per_Beneficiary). -/
theorem count_thousands_separator_counterexample :
    toNumeric (Cell.str "1,000") = none ∧
    reshapeRow ⟨[("Province", Cell.str "Cebu")], [("Rice Distribution", Cell.str "1,000")]⟩ = [] := by
  constructor <;> decide

/-- C8 amended: Count parsing tolerates surrounding whitespace and
unparseable text yields a null count (whose observation is dropped), but
thousands separators are tolerated only for the COST, Quantity and
People_Per_Beneficiary columns, not for activity-column counts. -/
theorem count_parsing_amended :
    (toNumeric (Cell.str "  250  ") = some 250 ∧
     reshapeRow ⟨[("Province", Cell.str "Cebu")], [("Rice", Cell.str " 250 ")]⟩ =
       [⟨[("Province", Cell.str "Cebu")], "Rice", some 250⟩]) ∧
    (cleanNumericCell (Cell.str "1,000") = some 1000 ∧ "Quantity" ∈ numericCols) ∧
    (toNumeric (Cell.str "1,000") = none ∧ toNumeric (Cell.str "unknown") = none) ∧
    (∀ r : RawRow, ∀ o ∈ reshapeRow r, o.Count ≠ none) := by
  refine ⟨⟨by decide, by decide⟩, ⟨by decide, by decide⟩, ⟨by decide, by decide⟩, ?_⟩
  intro r o ho hnone
  have hp := (List.mem_filter.mp ho).2
  rw [hnone] at hp
  simp [posCount] at hp

/-- Witness for the amended C8 at a concrete emitted observation. -/
theorem count_parsing_amended_witness :
    (Obs.mk [("Province", Cell.str "Cebu")] "Rice" (some 250)).Count ≠ none :=
  count_parsing_amended.2.2.2 ⟨[("Province", Cell.str "Cebu")], [("Rice", Cell.str " 250 ")]⟩
    _ (by decide)

set_option maxRecDepth 100000
set_option maxHeartbeats 4000000

/-- Counterexample to C9: "Chaptex" is at edit distance 1 from the static
column "Chapter" (one substitution), yet `is_static_column` classifies it
as an activity column — its best similarity is round(200·6/14) = 86, below
the default threshold 90. -/
theorem one_edit_static_counterexample :
    "Chapter" ∈ STATIC_COLUMNS ∧
    levenshtein "Chaptex".data "Chapter".data = 1 ∧
    is_static_column "Chaptex" STATIC_COLUMNS = false := by
  refine ⟨by decide, by decide, by decide⟩

/-- C9 amended: every canonical static name classifies Static, and so does
every name obtained from a canonical static name by deleting one character
(all canonical names have length ≥ 7, so one deletion keeps the similarity
at least round(200·6/13) = 92 ≥ 90); a one-character substitution, however,
can fall below the threshold, as the counterexample shows. -/
theorem one_edit_static_amended :
    (∀ name ∈ STATIC_COLUMNS, is_static_column name STATIC_COLUMNS = true) ∧
    (∀ name ∈ STATIC_COLUMNS, ∀ v ∈ deletionVariants name.data,
        is_static_column ⟨v⟩ STATIC_COLUMNS = true) := by
  constructor
  · decide
  · decide

/-- Witness for the amended C9: the canonical name "Chapter" and its
one-deletion variant "hapter". -/
theorem one_edit_static_amended_witness :
    is_static_column "Chapter" STATIC_COLUMNS = true ∧
    is_static_column ⟨"hapter".data⟩ STATIC_COLUMNS = true :=
  ⟨one_edit_static_amended.1 "Chapter" (by decide),
   one_edit_static_amended.2 "Chapter" (by decide) "hapter".data (by decide)⟩

/-- C10: inside the DMS-5W transformer a cash-unit row always gets a null
computed beneficiary count, so its Total Cost always falls back to
raw Count × ACTIVITY COSTING. -/
theorem cash_unit_cost_fallback :
    ∀ (row : BRow) (cost : Cell), isCashUnit row.Unit = true →
      calculate_beneficiary_units row = none ∧
      pipeline_total_cost row cost = transformed_count row.Count * transformed_costing cost := by
  intro row cost h
  have hb : calculate_beneficiary_units row = none := by
    simp [calculate_beneficiary_units, h]
  refine ⟨hb, ?_⟩
  simp [pipeline_total_cost, calculate_total_cost, h, hb, benAvailable, ratMul_eq]

/-- Witness for C10: a concrete cash-unit row. -/
theorem cash_unit_cost_fallback_witness :
    calculate_beneficiary_units ⟨Cell.str "10", Cell.num 2, Cell.num 5, some "Pesos"⟩ = none ∧
    pipeline_total_cost ⟨Cell.str "10", Cell.num 2, Cell.num 5, some "Pesos"⟩ (Cell.num 1000) =
      transformed_count (Cell.str "10") * transformed_costing (Cell.num 1000) :=
  cash_unit_cost_fallback ⟨Cell.str "10", Cell.num 2, Cell.num 5, some "Pesos"⟩
    (Cell.num 1000) (by decide)

end DmsCsr
